import Mathlib

/-
Verification of the File-Organizer-Suite repository against its
natural-language specification.

The repository contains two Python programs:
  * src/Item Organizer/item_organizer.py  (namespace ItemOrg below)
  * src/File Organizer/file_organize.py   (namespace FileOrg below)

Both are shallowly embedded here.  The filesystem is modelled as an
association list from path strings to file data; fallible I/O operations
(copy, remove, utime, mkdir, move, hashing) are modelled with explicit
fault-injection flags: a flag set means the corresponding Python call
raises at that point.  Content hashing (hashlib.md5 / hashlib.sha256) is an
external library primitive; every definition that needs it takes the hash
as an explicit function parameter, so that theorems hold for an arbitrary
hash and witnesses can instantiate it concretely.
-/

set_option autoImplicit false

namespace FileOrgSuite

/-! ## Python string and path helpers -/

/-- Index of the last occurrence of a character in a list, if any
(mirrors Python str.rfind for a single character). -/
def lastIdxOf (c : Char) : List Char → Option Nat
  | [] => none
  | a :: as =>
    match lastIdxOf c as with
    | some i => some (i + 1)
    | none => if a = c then some 0 else none

/-- str.lower on ASCII extension strings: lowercase every character. -/
def pyLower (s : String) : String := ⟨s.data.map Char.toLower⟩

/-- os.path.join for exactly two components (no separator edge cases are
exercised by the programs: both always join a directory with a bare name). -/
def pyJoin (a b : String) : String := a ++ "/" ++ b

/-- os.path.basename: everything after the last slash. -/
def pyBasename (s : String) : String :=
  match lastIdxOf '/' s.data with
  | none => s
  | some i => ⟨s.data.drop (i + 1)⟩

/-- os.path.dirname: everything before the last slash. -/
def pyDirname (s : String) : String :=
  match lastIdxOf '/' s.data with
  | none => ""
  | some i => ⟨s.data.take i⟩

/-- os.path.splitext applied to a bare file name (no directory part):
split at the last dot, except that leading dots do not begin an
extension (".bashrc" has no extension). -/
def pySplitextName (s : String) : String × String :=
  match lastIdxOf '.' s.data with
  | none => (s, "")
  | some i =>
    if (s.data.take i).all (· = '.') then (s, "")
    else (⟨s.data.take i⟩, ⟨s.data.drop i⟩)

/-- pathlib.PurePath.suffix of a bare file name: the part from the last
dot, empty when the dot is the first or the last character. -/
def pySuffix (s : String) : String :=
  match lastIdxOf '.' s.data with
  | none => ""
  | some i => if 0 < i ∧ i < s.data.length - 1 then ⟨s.data.drop i⟩ else ""

/-- pathlib.PurePath.stem of a bare file name. -/
def pyStem (s : String) : String :=
  match lastIdxOf '.' s.data with
  | none => s
  | some i => if 0 < i ∧ i < s.data.length - 1 then ⟨s.data.take i⟩ else s

/-! ## Shared rename-candidate search

Both programs resolve a rename with the same loop:
`while True: new_name = f"{base}_{counter}{ext}"; if not exists(new_name):
break; counter += 1`.  It is embedded once with explicit fuel (the Python
loop is unbounded). -/

/-- The candidate name f"{base}_{n}{ext}". -/
def candName (base ext : String) (n : Nat) : String :=
  base ++ "_" ++ toString n ++ ext

/-- The rename loop of item_organizer.handle_file_conflict (lines 182-191)
and of file_organize._move_file (lines 204-212): starting from `counter`,
return the first candidate that does not exist, together with its index. -/
def renameSearch (existsAt : String → Bool) (base ext : String) :
    Nat → Nat → Option (String × Nat)
  | _, 0 => none
  | counter, fuel + 1 =>
    let newName := candName base ext counter
    if existsAt newName then renameSearch existsAt base ext (counter + 1) fuel
    else some (newName, counter)

/-! ## item_organizer.py -/

namespace ItemOrg

/-- DEFAULT_CATEGORIES of item_organizer.py, in dict insertion order. -/
def DEFAULT_CATEGORIES : List (String × List String) :=
  [("audios", [".mp3", ".ogg", ".wav", ".flac", ".aac"]),
   ("videos", [".webm", ".mov", ".mp4", ".mkv", ".avi", ".flv"]),
   ("images", [".jpg", ".jpeg", ".png", ".gif", ".webp", ".svg", ".bmp", ".tiff"]),
   ("documents", [".txt", ".doc", ".docx", ".xlsx", ".pptx", ".pdf", ".csv", ".rtf"]),
   ("formats", [".sql", ".json", ".xml", ".yaml", ".yml"]),
   ("scripts", [".ps1", ".sh", ".py", ".js", ".rb", ".php", ".pl", ".bat", ".cmd"]),
   ("archives", [".zip", ".rar", ".7z", ".tar", ".gz"]),
   ("executables", [".exe", ".msi", ".dmg", ".pkg", ".deb", ".rpm"]),
   ("general", [])]

/-- Metadata and content of one file on disk.  `ctime` (stat.st_ctime,
reported by the program as the creation time) is set by the filesystem when
the file is created and cannot be set by utime. -/
structure FileData where
  content : String
  atime : Nat
  mtime : Nat
  ctime : Nat
deriving DecidableEq, Repr

/-- The filesystem: an association list from absolute paths to file data.
The first binding for a path wins. -/
abbrev FS := List (String × FileData)

def fsLookup : FS → String → Option FileData
  | [], _ => none
  | (k, v) :: t, p => if k = p then some v else fsLookup t p

def fsExists (fs : FS) (p : String) : Bool := (fsLookup fs p).isSome

/-- os.remove. -/
def fsRemove : FS → String → FS
  | [], _ => []
  | (k, v) :: t, p => if k = p then fsRemove t p else (k, v) :: fsRemove t p

/-- Create or overwrite the file at `p`. -/
def fsSet (fs : FS) (p : String) (d : FileData) : FS :=
  (p, d) :: fsRemove fs p

/-- The FileInfo dataclass of item_organizer.py. -/
structure FileInfo where
  name : String
  path : String
  size : Nat
  modified_time : Nat
  created_time : Nat
  checksum : Option String := none
deriving DecidableEq, Repr

/-- FileInfo.extension: os.path.splitext(self.name)[1].lower(). -/
def FileInfo.extension (fi : FileInfo) : String :=
  pyLower (pySplitextName fi.name).2

/-- The organizer configuration: source/destination paths and the category
table (self.categories). -/
structure Organizer where
  source_path : String
  destination_path : String
  categories : List (String × List String)
deriving DecidableEq, Repr

/-- The mutable counters of the FileOrganizer object. -/
structure ItemStats where
  skip_count : Nat := 0
  error_count : Nat := 0
  overwrite_count : Nat := 0
  file_counters : List (String × Nat) := []
deriving DecidableEq, Repr

/-- self.file_counters[category] += 1. -/
def bumpCounter (l : List (String × Nat)) (k : String) : List (String × Nat) :=
  l.map (fun p => if p.1 = k then (p.1, p.2 + 1) else p)

/-- FileOrganizer.get_file_info (lines 133-154): stat the file inside the
source directory; compute the checksum only when the size exceeds 1 MiB
(lines 146-148).  Returns none when the path is not a regular file. -/
def getFileInfo (hash : String → String) (org : Organizer) (fs : FS)
    (fileName : String) : Option FileInfo :=
  let filePath := pyJoin org.source_path fileName
  match fsLookup fs filePath with
  | none => none
  | some d =>
    let size := d.content.length
    let base : FileInfo :=
      { name := fileName, path := filePath, size := size,
        modified_time := d.mtime, created_time := d.ctime }
    if size > 1024 * 1024 then some { base with checksum := some (hash d.content) }
    else some base

/-- FileOrganizer.categorize_file (lines 156-161): first category whose
extension list contains the file's extension, else "general". -/
def categorizeFile (org : Organizer) (fi : FileInfo) : String :=
  match org.categories.find? (fun p => p.2.contains fi.extension) with
  | some p => p.1
  | none => "general"

/-- FileOrganizer.handle_file_conflict (lines 163-197).  Returns
(proceed, possibly-renamed FileInfo, updated counters), or none when the
rename loop's fuel runs out.  Note (line 172): the "destination" info is
obtained by get_file_info(os.path.basename(dest_path)), which resolves the
name inside the SOURCE directory. -/
def handleFileConflict (hash : String → String) (org : Organizer) (fs : FS)
    (destPath : String) (fi : FileInfo) (stats : ItemStats) (fuel : Nat) :
    Option (Bool × FileInfo × ItemStats) :=
  if ¬ fsExists fs destPath then some (true, fi, stats)
  else
    let destInfo := getFileInfo hash org fs (pyBasename destPath)
    let dup : Bool :=
      match destInfo, fi.checksum with
      | some dInfo, some c =>
        match dInfo.checksum with
        | some c2 => c = c2
        | none => false
      | _, _ => false
    if dup then
      some (false, fi, { stats with skip_count := stats.skip_count + 1 })
    else
      let resolution := "rename"
      if resolution = "rename" then
        let se := pySplitextName fi.name
        match renameSearch
            (fun nm => fsExists fs (pyJoin (pyDirname destPath) nm))
            se.1 se.2 1 fuel with
        | some r => some (true, { fi with name := r.1 }, stats)
        | none => none
      else if resolution = "overwrite" then
        some (true, fi, { stats with overwrite_count := stats.overwrite_count + 1 })
      else
        some (false, fi, { stats with skip_count := stats.skip_count + 1 })

/-- Fault-injection flags for the three I/O calls of move_file.  A set flag
means the call raises instead of performing its effect. -/
structure IOFaults where
  copyFails : Bool := false
  removeFails : Bool := false
  utimeFails : Bool := false
deriving DecidableEq, Repr

/-- shutil.copy2: copy content and (atime, mtime) metadata; the new file's
ctime is the current time. -/
def copy2 (fs : FS) (srcPath dstPath : String) (now : Nat) : FS :=
  match fsLookup fs srcPath with
  | none => fs
  | some d =>
    fsSet fs dstPath { content := d.content, atime := d.atime, mtime := d.mtime, ctime := now }

/-- os.utime(path, (atime, mtime)). -/
def utime (fs : FS) (p : String) (a m : Nat) : FS :=
  match fsLookup fs p with
  | none => fs
  | some d => fsSet fs p { d with atime := a, mtime := m }

/-- FileOrganizer.move_file (lines 199-221).  dest_path is computed once
from the incoming file name (line 202) and is NOT recomputed after
handle_file_conflict renames file_info (the copy at line 209 still targets
the original dest_path).  Any raise in the try block increments error_count
and returns False without touching earlier effects. -/
def moveFile (hash : String → String) (org : Organizer) (faults : IOFaults)
    (now : Nat) (fs : FS) (fi : FileInfo) (category : String)
    (stats : ItemStats) (fuel : Nat) : Option (Bool × FS × ItemStats) :=
  let destDir := pyJoin org.destination_path category
  let destPath := pyJoin destDir fi.name
  match handleFileConflict hash org fs destPath fi stats fuel with
  | none => none
  | some (false, _, stats1) => some (false, fs, stats1)
  | some (true, fi1, stats1) =>
    if faults.copyFails then
      some (false, fs, { stats1 with error_count := stats1.error_count + 1 })
    else
      let fs1 := copy2 fs fi1.path destPath now
      if faults.removeFails then
        some (false, fs1, { stats1 with error_count := stats1.error_count + 1 })
      else
        let fs2 := fsRemove fs1 fi1.path
        if faults.utimeFails then
          some (false, fs2, { stats1 with error_count := stats1.error_count + 1 })
        else
          let fs3 := utime fs2 destPath fi1.created_time fi1.modified_time
          some (true, fs3, { stats1 with file_counters := bumpCounter stats1.file_counters category })

/-- FileOrganizer.process_files enumeration (lines 226-235): every name
returned by os.listdir is handed to get_file_info, and exactly the names
that are regular files inside the source directory are processed (there is
no filter on leading dots). -/
def processedInfos (hash : String → String) (org : Organizer) (fs : FS)
    (listing : List String) : List FileInfo :=
  listing.filterMap (getFileInfo hash org fs)

end ItemOrg

/-! ## file_organize.py -/

namespace FileOrg

/-- The FileCategory enum of file_organize.py. -/
inductive FileCategory where
  | IMAGES | VIDEOS | DOCUMENTS | MUSIC | ARCHIVES | DATA | CODE | EXECUTABLES | UNKNOWN
deriving DecidableEq, Repr

/-- category.name.title(), used for the destination folder name. -/
def FileCategory.titleName : FileCategory → String
  | .IMAGES => "Images"
  | .VIDEOS => "Videos"
  | .DOCUMENTS => "Documents"
  | .MUSIC => "Music"
  | .ARCHIVES => "Archives"
  | .DATA => "Data"
  | .CODE => "Code"
  | .EXECUTABLES => "Executables"
  | .UNKNOWN => "Unknown"

/-- The default self.extensions table, in dict insertion order.  Python
stores the extensions as sets; only membership is ever used, so a list
representation is faithful. -/
def defaultExtensions : List (FileCategory × List String) :=
  [(.IMAGES, [".jpg", ".jpeg", ".png", ".gif", ".bmp", ".tiff", ".webp"]),
   (.VIDEOS, [".mp4", ".mkv", ".avi", ".mov", ".wmv", ".flv", ".webm"]),
   (.DOCUMENTS, [".pdf", ".doc", ".docx", ".odt", ".txt", ".rtf", ".xls", ".xlsx", ".ppt", ".pptx"]),
   (.MUSIC, [".mp3", ".wav", ".flac", ".aac", ".ogg", ".wma"]),
   (.ARCHIVES, [".zip", ".rar", ".7z", ".tar", ".gz", ".bz2"]),
   (.DATA, [".csv", ".json", ".xml", ".sql", ".db", ".sqlite"]),
   (.CODE, [".py", ".js", ".html", ".css", ".java", ".c", ".cpp", ".h", ".sh", ".php"]),
   (.EXECUTABLES, [".exe", ".msi", ".dmg", ".pkg", ".deb", ".rpm", ".apk"])]

/-- FileOrganizer._get_file_category (lines 135-141): lowercase the path's
suffix, return the first category whose extension set contains it, else
UNKNOWN. -/
def getFileCategory (exts : List (FileCategory × List String)) (path : String) :
    FileCategory :=
  let ext := pyLower (pySuffix (pyBasename path))
  match exts.find? (fun p => p.2.contains ext) with
  | some p => p.1
  | none => .UNKNOWN

/-- The FileOperation dataclass.  The empty string stands for the default
Path() destination. -/
structure FileOperation where
  source : String
  destination : String
  action : String
  success : Bool := false
  error : Option String := none
deriving DecidableEq, Repr

/-- The ConflictResolution enum. -/
inductive ConflictResolution where
  | RENAME | OVERWRITE | SKIP
deriving DecidableEq, Repr

/-- What the interactive _resolve_conflict session eventually produces:
either a valid choice, or a KeyboardInterrupt (re-raised at line 183). -/
inductive UserChoice where
  | pick (r : ConflictResolution)
  | interrupt
deriving DecidableEq, Repr

/-- Filesystem for file_organize.py: directories plus files with content
(only content is relevant to its claims). -/
structure FS2 where
  dirs : List String := []
  files : List (String × String) := []
deriving DecidableEq, Repr

def flookup : List (String × String) → String → Option String
  | [], _ => none
  | (k, v) :: t, p => if k = p then some v else flookup t p

def fremove : List (String × String) → String → List (String × String)
  | [], _ => []
  | (k, v) :: t, p => if k = p then fremove t p else (k, v) :: fremove t p

def FS2.lookup (fs : FS2) (p : String) : Option String := flookup fs.files p

/-- Path.exists on a file path. -/
def FS2.pathExists (fs : FS2) (p : String) : Bool := (fs.lookup p).isSome

/-- Path.mkdir(exist_ok=True). -/
def FS2.mkdirOk (fs : FS2) (p : String) : FS2 :=
  if p ∈ fs.dirs then fs else { fs with dirs := p :: fs.dirs }

/-- shutil.move: remove the source entry, (over)write the destination. -/
def FS2.move (fs : FS2) (src dst : String) : FS2 :=
  match fs.lookup src with
  | none => fs
  | some c =>
    { fs with files := (dst, c) :: fremove (fremove fs.files src) dst }

/-- Fault-injection for _move_file: each field, when some, is the message of
the exception the corresponding call raises. -/
structure Faults where
  mkdirRaises : Option String := none
  hashRaises : Option String := none
  moveRaises : Option String := none
deriving DecidableEq, Repr

/-- How the body of _move_file exits: normal return, a caught Exception, or
a KeyboardInterrupt propagating out of _resolve_conflict. -/
inductive BodyExit where
  | ok
  | exc (msg : String)
  | interrupt
deriving DecidableEq, Repr

/-- FileOrganizer._calculate_hash (lines 148-157) under fault injection:
raises when the flag is set or the file is unreadable. -/
def calcHash (hash : String → String) (faults : Faults) (fs : FS2) (p : String) :
    Except String String :=
  match faults.hashRaises with
  | some m => .error m
  | none =>
    match fs.lookup p with
    | none => .error "FileNotFoundError"
    | some c => .ok (hash c)

/-- The tail of _move_file shared by every non-skipping path (lines
227-231): op.destination = target_path; op.action = "Moved"; then, unless
dry_run, shutil.move and op.success = True. -/
def finishMove (fs : FS2) (op : FileOperation) (targetPath src : String)
    (dryRun : Bool) (faults : Faults) : BodyExit × FileOperation × FS2 :=
  let op1 := { op with destination := targetPath, action := "Moved" }
  if dryRun then (.ok, op1, fs)
  else
    match faults.moveRaises with
    | some m => (.exc m, op1, fs)
    | none => (.ok, { op1 with success := true }, fs.move src targetPath)

/-- The body of FileOrganizer._move_file (lines 185-232), i.e. everything
inside the try block.  Returns the exit kind together with the state of
`op` and of the filesystem at the exit point; none when the rename loop's
fuel runs out. -/
def moveFileBody (hash : String → String) (exts : List (FileCategory × List String))
    (baseDir : String) (fs : FS2) (source : String) (dryRun : Bool)
    (faults : Faults) (choice : UserChoice) (fuel : Nat) :
    Option (BodyExit × FileOperation × FS2) :=
  let op0 : FileOperation := { source := source, destination := "", action := "" }
  let category := getFileCategory exts source
  let targetFolder := pyJoin baseDir category.titleName
  let targetPath := pyJoin targetFolder (pyBasename source)
  let afterMkdir : Except String FS2 :=
    if dryRun then .ok fs
    else
      match faults.mkdirRaises with
      | some m => .error m
      | none => .ok (fs.mkdirOk targetFolder)
  match afterMkdir with
  | .error m => some (.exc m, op0, fs)
  | .ok fs1 =>
    if fs1.pathExists targetPath ∧ targetPath ≠ source then
      if dryRun then
        some (.ok, { op0 with destination := targetPath, action := "Would resolve conflict" }, fs1)
      else
        match choice with
        | .interrupt => some (.interrupt, op0, fs1)
        | .pick .RENAME =>
          match renameSearch (fun nm => fs1.pathExists (pyJoin targetFolder nm))
              (pyStem (pyBasename source)) (pySuffix (pyBasename source)) 1 fuel with
          | none => none
          | some r =>
            some (finishMove fs1 { op0 with action := "Renamed" }
              (pyJoin targetFolder r.1) source dryRun faults)
        | .pick .OVERWRITE =>
          match calcHash hash faults fs1 source with
          | .error m => some (.exc m, op0, fs1)
          | .ok srcHash =>
            match calcHash hash faults fs1 targetPath with
            | .error m => some (.exc m, op0, fs1)
            | .ok tgtHash =>
              if srcHash = tgtHash then
                some (.ok, { op0 with action := "Skipped (identical)", destination := targetPath }, fs1)
              else
                some (finishMove fs1 { op0 with action := "Overwritten" }
                  targetPath source dryRun faults)
        | .pick .SKIP =>
          some (.ok, { op0 with action := "Skipped", destination := targetPath }, fs1)
    else
      some (finishMove fs1 op0 targetPath source dryRun faults)

/-- FileOrganizer._move_file with its except/finally wrapper (lines
233-237): an Exception is stored in op.error; the `return op` in the
finally block swallows a KeyboardInterrupt and returns op unchanged. -/
def moveFileOrg (hash : String → String) (exts : List (FileCategory × List String))
    (baseDir : String) (fs : FS2) (source : String) (dryRun : Bool)
    (faults : Faults) (choice : UserChoice) (fuel : Nat) :
    Option (FileOperation × FS2) :=
  (moveFileBody hash exts baseDir fs source dryRun faults choice fuel).map
    (fun r =>
      match r.1 with
      | .ok => (r.2.1, r.2.2)
      | .exc m => ({ r.2.1 with error := some m }, r.2.2)
      | .interrupt => (r.2.1, r.2.2))

/-- One entry of the source-directory listing. -/
structure DirEntry where
  name : String
  isFile : Bool
deriving DecidableEq, Repr

/-- str.startswith('.'): the first character is a dot. -/
def startsWithDot (s : String) : Bool :=
  match s.data with
  | [] => false
  | c :: _ => c = '.'

/-- The enumeration of FileOrganizer.organize (lines 245-248):
regular files directly inside base_dir whose names do not start with a
dot. -/
def filesToProcess (entries : List DirEntry) : List DirEntry :=
  entries.filter (fun f => f.isFile && !(startsWithDot f.name))

end FileOrg

/-! ## Concrete sample data used by witnesses and counterexamples -/

/-- A content of 1 MiB + 1 bytes, above the checksum threshold of
item_organizer.get_file_info. -/
def bigContent : String := String.mk (List.replicate 1048577 'a')

/-- The identity function used to instantiate the hash parameter in
concrete runs (the development is parametric in the hash). -/
def hashId : String → String := fun c => c

/-- A sample organizer over /s and /d with the default category table. -/
def sampleOrg : ItemOrg.Organizer := ⟨"/s", "/d", ItemOrg.DEFAULT_CATEGORIES⟩

/-- A small (3-byte) source file. -/
def smallData : ItemOrg.FileData := ⟨"abc", 1, 10, 5⟩

/-- A destination file with the same content as `smallData`. -/
def destData : ItemOrg.FileData := ⟨"abc", 2, 20, 6⟩

/-- FileInfo as get_file_info produces it for the small source file
(size 3 is at most 1 MiB, so no checksum). -/
def fiNotes : ItemOrg.FileInfo := ⟨"notes.txt", "/s/notes.txt", 3, 10, 5, none⟩

/-- Source directory containing only notes.txt. -/
def fsSolo : ItemOrg.FS := [("/s/notes.txt", smallData)]

/-- Source notes.txt plus an identical-content destination copy. -/
def fsDup : ItemOrg.FS := [("/s/notes.txt", smallData), ("/d/documents/notes.txt", destData)]

/-- A source file above the checksum threshold. -/
def dBig : ItemOrg.FileData := ⟨bigContent, 1, 10, 5⟩

/-- A destination file with the same (large) content. -/
def ddBig : ItemOrg.FileData := ⟨bigContent, 2, 20, 6⟩

/-- FileInfo for the large file under the identity hash: the checksum is
the content itself. -/
def fiBig : ItemOrg.FileInfo := ⟨"big.bin", "/s/big.bin", 1048577, 10, 5, some bigContent⟩

/-- Large source file plus an identical-content destination copy. -/
def fsBigDup : ItemOrg.FS := [("/s/big.bin", dBig), ("/d/general/big.bin", ddBig)]

/-- FileInfo for a second large file (idempotence scenario). -/
def fiMovie : ItemOrg.FileInfo := ⟨"movie.bin", "/s/movie.bin", 1048577, 10, 5, some bigContent⟩

/-- Second-run state for the large file: source still present, destination
already organized with identical content. -/
def fsMovie : ItemOrg.FS := [("/s/movie.bin", dBig), ("/d/general/movie.bin", ddBig)]

/-- FileInfo for a small photo.jpg (idempotence counterexample). -/
def fiPhoto : ItemOrg.FileInfo := ⟨"photo.jpg", "/s/photo.jpg", 2, 11, 6, none⟩

/-- Second-run state for photo.jpg: source present, destination already
organized with byte-identical content. -/
def fsPhoto : ItemOrg.FS :=
  [("/s/photo.jpg", ⟨"JJ", 1, 11, 6⟩), ("/d/images/photo.jpg", ⟨"JJ", 2, 21, 7⟩)]

/-- FileInfo for a.txt whose destination collides with distinct content. -/
def fiA : ItemOrg.FileInfo := ⟨"a.txt", "/s/a.txt", 3, 12, 6, none⟩

/-- Source a.txt (content NEW) and a distinct destination a.txt (content
OLD). -/
def fsDistinct : ItemOrg.FS :=
  [("/s/a.txt", ⟨"NEW", 1, 12, 6⟩), ("/d/documents/a.txt", ⟨"OLD", 2, 22, 7⟩)]

/-- file_organize: base dir /b containing a.txt, no conflict. -/
def fsOrgSolo : FileOrg.FS2 := ⟨[], [("/b/a.txt", "X")]⟩

/-- file_organize: a.txt plus a distinct-content conflict in Documents. -/
def fsOrgConf : FileOrg.FS2 := ⟨[], [("/b/a.txt", "X"), ("/b/Documents/a.txt", "Y")]⟩

/-! ## Helper lemmas -/

namespace ItemOrg

theorem fsLookup_fsRemove (fs : FS) (p q : String) :
    fsLookup (fsRemove fs p) q = if q = p then none else fsLookup fs q := by
  induction fs with
  | nil => simp [fsRemove, fsLookup]
  | cons a t ih =>
    obtain ⟨k, v⟩ := a
    by_cases hk : k = p
    · rw [show fsRemove ((k, v) :: t) p = fsRemove t p by simp [fsRemove, hk], ih]
      by_cases hq : q = p
      · simp [hq]
      · have hkq : ¬ k = q := fun h => hq (by rw [← h, hk])
        simp [fsLookup, hq, hkq]
    · rw [show fsRemove ((k, v) :: t) p = (k, v) :: fsRemove t p by simp [fsRemove, hk]]
      by_cases hkq : k = q
      · have hq : ¬ q = p := fun h => hk (by rw [hkq, h])
        simp [fsLookup, hkq, hq]
      · simp [fsLookup, hkq, ih]

theorem fsLookup_fsSet (fs : FS) (p : String) (d : FileData) (q : String) :
    fsLookup (fsSet fs p d) q = if q = p then some d else fsLookup fs q := by
  unfold fsSet
  by_cases hq : q = p
  · simp [fsLookup, hq]
  · have hpq : ¬ p = q := fun h => hq h.symm
    simp [fsLookup, hpq, hq, fsLookup_fsRemove]

/-- Characterization of get_file_info results. -/
theorem getFileInfo_spec (hash : String → String) (org : Organizer) (fs : FS)
    (n : String) (fi : FileInfo) (h : getFileInfo hash org fs n = some fi) :
    ∃ d, fsLookup fs (pyJoin org.source_path n) = some d ∧
      fi.name = n ∧ fi.path = pyJoin org.source_path n ∧
      fi.size = d.content.length ∧
      fi.modified_time = d.mtime ∧ fi.created_time = d.ctime ∧
      fi.checksum =
        (if d.content.length > 1024 * 1024 then some (hash d.content) else none) := by
  simp only [getFileInfo] at h
  cases hd : fsLookup fs (pyJoin org.source_path n) with
  | none => rw [hd] at h; exact absurd h (by simp)
  | some d =>
    rw [hd] at h
    refine ⟨d, rfl, ?_⟩
    by_cases hb : d.content.length > 1024 * 1024 <;>
      simp only [hb, if_true, if_false, ite_true, ite_false, Option.some.injEq] at h <;>
      subst h <;> simp [hb]

/-- handle_file_conflict when the destination path does not exist. -/
theorem handleConflict_noDest (hash : String → String) (org : Organizer) (fs : FS)
    (destPath : String) (fi : FileInfo) (stats : ItemStats) (fuel : Nat)
    (h : fsExists fs destPath = false) :
    handleFileConflict hash org fs destPath fi stats fuel = some (true, fi, stats) := by
  unfold handleFileConflict
  simp [h]

/-- handle_file_conflict when the destination exists and the source file is
above the 1 MiB checksum threshold: the "destination" info is re-read from
the source directory (line 172), so both checksums are the source file's
and the file is skipped as a duplicate. -/
theorem handleConflict_dupSkip (hash : String → String) (org : Organizer) (fs : FS)
    (destPath : String) (fi : FileInfo) (stats : ItemStats) (fuel : Nat) (d : FileData)
    (hex : fsExists fs destPath = true)
    (hbase : pyBasename destPath = fi.name)
    (hsrc : fsLookup fs (pyJoin org.source_path fi.name) = some d)
    (hbig : d.content.length > 1024 * 1024)
    (hcs : fi.checksum = some (hash d.content)) :
    handleFileConflict hash org fs destPath fi stats fuel =
      some (false, fi, { stats with skip_count := stats.skip_count + 1 }) := by
  unfold handleFileConflict
  rw [hbase]
  simp [hex, getFileInfo, hsrc, hbig, hcs]

/-- move_file through the duplicate-skip branch: the filesystem is
returned unchanged and only skip_count moves. -/
theorem moveFile_dupSkip (hash : String → String) (org : Organizer) (faults : IOFaults)
    (now : Nat) (fs : FS) (fi : FileInfo) (category : String)
    (stats : ItemStats) (fuel : Nat) (d : FileData)
    (hex : fsExists fs (pyJoin (pyJoin org.destination_path category) fi.name) = true)
    (hbase : pyBasename (pyJoin (pyJoin org.destination_path category) fi.name) = fi.name)
    (hsrc : fsLookup fs (pyJoin org.source_path fi.name) = some d)
    (hbig : d.content.length > 1024 * 1024)
    (hcs : fi.checksum = some (hash d.content)) :
    moveFile hash org faults now fs fi category stats fuel =
      some (false, fs, { stats with skip_count := stats.skip_count + 1 }) := by
  have hc := handleConflict_dupSkip hash org fs
    (pyJoin (pyJoin org.destination_path category) fi.name) fi stats fuel d
    hex hbase hsrc hbig hcs
  simp only [moveFile]
  rw [hc]

/-- handle_file_conflict when the destination exists but the source has no
checksum (size at most 1 MiB): the duplicate test is skipped and the rename
policy applies. -/
theorem handleConflict_rename (hash : String → String) (org : Organizer) (fs : FS)
    (destPath : String) (fi : FileInfo) (stats : ItemStats) (fuel : Nat)
    (r : String × Nat)
    (hex : fsExists fs destPath = true)
    (hcs : fi.checksum = none)
    (hrs : renameSearch (fun nm => fsExists fs (pyJoin (pyDirname destPath) nm))
      (pySplitextName fi.name).1 (pySplitextName fi.name).2 1 fuel = some r) :
    handleFileConflict hash org fs destPath fi stats fuel =
      some (true, { fi with name := r.1 }, stats) := by
  unfold handleFileConflict
  cases hdi : getFileInfo hash org fs (pyBasename destPath) <;>
    simp [hex, hcs, hdi, hrs]

end ItemOrg

/-- The rename loop returns the first (smallest-index) candidate name that
does not exist, provided the fuel reaches a free candidate. -/
theorem renameSearch_spec (existsAt : String → Bool) (base ext : String) :
    ∀ (fuel c k : Nat), c ≤ k → k < c + fuel →
    existsAt (candName base ext k) = false →
    ∃ n, c ≤ n ∧ n ≤ k ∧
      renameSearch existsAt base ext c fuel = some (candName base ext n, n) ∧
      existsAt (candName base ext n) = false ∧
      ∀ m, c ≤ m → m < n → existsAt (candName base ext m) = true := by
  intro fuel
  induction fuel with
  | zero => intro c k hck hk _; omega
  | succ f ih =>
    intro c k hck hk hfree
    by_cases hc : existsAt (candName base ext c) = true
    · have hck2 : c + 1 ≤ k := by
        rcases Nat.lt_or_ge c k with h | h
        · omega
        · have : c = k := by omega
          rw [this] at hc
          rw [hc] at hfree
          exact absurd hfree (by simp)
      obtain ⟨n, h1, h2, h3, h4, h5⟩ := ih (c + 1) k hck2 (by omega) hfree
      refine ⟨n, by omega, h2, ?_, h4, ?_⟩
      · show renameSearch existsAt base ext c (f + 1) = _
        unfold renameSearch
        simp only [hc, if_true]
        exact h3
      · intro m hm1 hm2
        rcases Nat.eq_or_lt_of_le hm1 with he | hl
        · rw [← he]; exact hc
        · exact h5 m hl hm2
    · have hc2 : existsAt (candName base ext c) = false := by
        cases h : existsAt (candName base ext c)
        · rfl
        · exact absurd h hc
      refine ⟨c, Nat.le_refl c, hck, ?_, hc2, ?_⟩
      · unfold renameSearch
        simp [hc2]
      · intro m hm1 hm2; omega

theorem contains_eq_true {a : String} {l : List String} :
    l.contains a = true ↔ a ∈ l := by
  simp [List.contains]

theorem contains_eq_false {a : String} {l : List String} (h : ¬ a ∈ l) :
    l.contains a = false := by
  cases hc : l.contains a
  · rfl
  · exact absurd (contains_eq_true.mp hc) h

theorem find?_first {α : Type} (p : α → Bool) (pre : List α) (x : α) (post : List α)
    (hpre : ∀ y ∈ pre, p y = false) (hx : p x = true) :
    (pre ++ x :: post).find? p = some x := by
  induction pre with
  | nil => simp [List.find?_cons_of_pos _ hx]
  | cons a t ih =>
    have ha : p a = false := hpre a (by simp)
    rw [List.cons_append, List.find?_cons_of_neg _ (by simp [ha])]
    exact ih (fun y hy => hpre y (by simp [hy]))

theorem bigContent_length : bigContent.length = 1048577 := by
  rw [show bigContent.length = (List.replicate 1048577 'a').length from rfl,
    List.length_replicate]

/-- C6: categorize is total and deterministic: for every extension, after
normalization to lowercase including the leading separator, if the
extension is present in some category's extension set the first owning
category (in table construction order) is returned; for every extension
absent from all sets, and for the empty extension, the default category is
returned; it never fails and has no side effects.  Parts 1-3 are
item_organizer.categorize_file (default category "general"), parts 4-6 are
file_organize._get_file_category (default category UNKNOWN); both are pure
total functions.  Normalization lives in FileInfo.extension and in
getFileCategory, so the hypotheses speak about the normalized extension. -/
theorem claim_C6_categorize :
    (∀ (src dst : String) (pre : List (String × List String)) (cat : String)
        (exts : List String) (post : List (String × List String)) (fi : ItemOrg.FileInfo),
      (∀ p ∈ pre, ¬ fi.extension ∈ p.2) → fi.extension ∈ exts →
      ItemOrg.categorizeFile ⟨src, dst, pre ++ (cat, exts) :: post⟩ fi = cat)
    ∧ (∀ (org : ItemOrg.Organizer) (fi : ItemOrg.FileInfo),
      (∀ p ∈ org.categories, ¬ fi.extension ∈ p.2) →
      ItemOrg.categorizeFile org fi = "general")
    ∧ (∀ (src dst : String) (fi : ItemOrg.FileInfo),
      fi.extension = "" →
      ItemOrg.categorizeFile ⟨src, dst, ItemOrg.DEFAULT_CATEGORIES⟩ fi = "general")
    ∧ (∀ (pre : List (FileOrg.FileCategory × List String)) (cat : FileOrg.FileCategory)
        (exts : List String) (post : List (FileOrg.FileCategory × List String)) (path : String),
      (∀ p ∈ pre, ¬ pyLower (pySuffix (pyBasename path)) ∈ p.2) →
      pyLower (pySuffix (pyBasename path)) ∈ exts →
      FileOrg.getFileCategory (pre ++ (cat, exts) :: post) path = cat)
    ∧ (∀ (tbl : List (FileOrg.FileCategory × List String)) (path : String),
      (∀ p ∈ tbl, ¬ pyLower (pySuffix (pyBasename path)) ∈ p.2) →
      FileOrg.getFileCategory tbl path = FileOrg.FileCategory.UNKNOWN)
    ∧ (∀ path : String,
      pySuffix (pyBasename path) = "" →
      FileOrg.getFileCategory FileOrg.defaultExtensions path = FileOrg.FileCategory.UNKNOWN) := by
  refine ⟨?_, ?_, ?_, ?_, ?_, ?_⟩
  · intro src dst pre cat exts post fi hpre hx
    unfold ItemOrg.categorizeFile
    rw [show ItemOrg.Organizer.categories ⟨src, dst, pre ++ (cat, exts) :: post⟩ =
        pre ++ (cat, exts) :: post from rfl]
    rw [find?_first _ pre (cat, exts) post
      (fun y hy => contains_eq_false (hpre y hy)) (contains_eq_true.mpr hx)]
  · intro org fi h
    unfold ItemOrg.categorizeFile
    rw [List.find?_eq_none.mpr (fun x hx => by
      show ¬ (x.2.contains fi.extension = true)
      rw [contains_eq_false (h x hx)]
      simp)]
  · intro src dst fi h
    unfold ItemOrg.categorizeFile
    rw [show ItemOrg.Organizer.categories ⟨src, dst, ItemOrg.DEFAULT_CATEGORIES⟩ =
        ItemOrg.DEFAULT_CATEGORIES from rfl]
    rw [h]
    decide
  · intro pre cat exts post path hpre hx
    simp only [FileOrg.getFileCategory]
    rw [find?_first _ pre (cat, exts) post
      (fun y hy => contains_eq_false (hpre y hy)) (contains_eq_true.mpr hx)]
  · intro tbl path h
    simp only [FileOrg.getFileCategory]
    rw [List.find?_eq_none.mpr (fun x hx => by
      show ¬ (x.2.contains (pyLower (pySuffix (pyBasename path))) = true)
      rw [contains_eq_false (h x hx)]
      simp)]
  · intro path h
    simp only [FileOrg.getFileCategory]
    rw [h]
    decide

/-- Witness for C6 at concrete inputs: "notes.txt" falls in "documents"
(the fourth table entry, with the first three not owning ".txt");
an unknown extension and the empty extension fall to the default in both
programs. -/
theorem claim_C6_witness :
    ((⟨"weird.qqq", "/s/weird.qqq", 1, 0, 0, none⟩ : ItemOrg.FileInfo).extension = ".qqq")
    ∧ ItemOrg.categorizeFile
        ⟨"/s", "/d",
          [("audios", [".mp3", ".ogg", ".wav", ".flac", ".aac"]),
           ("videos", [".webm", ".mov", ".mp4", ".mkv", ".avi", ".flv"]),
           ("images", [".jpg", ".jpeg", ".png", ".gif", ".webp", ".svg", ".bmp", ".tiff"])] ++
          ("documents", [".txt", ".doc", ".docx", ".xlsx", ".pptx", ".pdf", ".csv", ".rtf"]) ::
          [("formats", [".sql", ".json", ".xml", ".yaml", ".yml"]),
           ("scripts", [".ps1", ".sh", ".py", ".js", ".rb", ".php", ".pl", ".bat", ".cmd"]),
           ("archives", [".zip", ".rar", ".7z", ".tar", ".gz"]),
           ("executables", [".exe", ".msi", ".dmg", ".pkg", ".deb", ".rpm"]),
           ("general", [])]⟩
        ⟨"notes.txt", "/s/notes.txt", 3, 10, 5, none⟩ = "documents"
    ∧ ItemOrg.categorizeFile ⟨"/s", "/d", ItemOrg.DEFAULT_CATEGORIES⟩
        ⟨"weird.qqq", "/s/weird.qqq", 1, 0, 0, none⟩ = "general"
    ∧ ItemOrg.categorizeFile ⟨"/s", "/d", ItemOrg.DEFAULT_CATEGORIES⟩
        ⟨"README", "/s/README", 1, 0, 0, none⟩ = "general"
    ∧ FileOrg.getFileCategory
        ([(FileOrg.FileCategory.IMAGES, [".jpg", ".jpeg", ".png", ".gif", ".bmp", ".tiff", ".webp"])] ++
          (FileOrg.FileCategory.VIDEOS, [".mp4", ".mkv", ".avi", ".mov", ".wmv", ".flv", ".webm"]) ::
          [(FileOrg.FileCategory.MUSIC, [".mp3", ".wav", ".flac", ".aac", ".ogg", ".wma"])])
        "/b/clip.MP4" = FileOrg.FileCategory.VIDEOS
    ∧ FileOrg.getFileCategory FileOrg.defaultExtensions "/b/weird.qqq"
        = FileOrg.FileCategory.UNKNOWN
    ∧ FileOrg.getFileCategory FileOrg.defaultExtensions "/b/README"
        = FileOrg.FileCategory.UNKNOWN := by
  refine ⟨by decide, ?_, ?_, ?_, ?_, ?_, ?_⟩
  · exact claim_C6_categorize.1 "/s" "/d" _ "documents" _ _
      ⟨"notes.txt", "/s/notes.txt", 3, 10, 5, none⟩ (by decide) (by decide)
  · exact claim_C6_categorize.2.1 ⟨"/s", "/d", ItemOrg.DEFAULT_CATEGORIES⟩
      ⟨"weird.qqq", "/s/weird.qqq", 1, 0, 0, none⟩ (by decide)
  · exact claim_C6_categorize.2.2.1 "/s" "/d" ⟨"README", "/s/README", 1, 0, 0, none⟩ (by decide)
  · exact claim_C6_categorize.2.2.2.1 _ FileOrg.FileCategory.VIDEOS _ _ "/b/clip.MP4"
      (by decide) (by decide)
  · exact claim_C6_categorize.2.2.2.2.1 FileOrg.defaultExtensions "/b/weird.qqq" (by decide)
  · exact claim_C6_categorize.2.2.2.2.2 "/b/README" (by decide)

/-- C9: get_file_info computes a content fingerprint only for files whose
size strictly exceeds 1 MiB; for every file of at most 1 MiB the checksum
field stays None, so a name collision for such a file never takes the
duplicate-skip branch and always proceeds to the configured resolution
policy (the hard-coded default, rename). -/
theorem claim_C9_checksum_threshold :
    (∀ (hash : String → String) (org : ItemOrg.Organizer) (fs : ItemOrg.FS)
        (n : String) (fi : ItemOrg.FileInfo),
      ItemOrg.getFileInfo hash org fs n = some fi →
      (fi.size ≤ 1024 * 1024 → fi.checksum = none) ∧
      (1024 * 1024 < fi.size →
        ∃ d, ItemOrg.fsLookup fs (pyJoin org.source_path n) = some d ∧
          fi.checksum = some (hash d.content)))
    ∧ (∀ (hash : String → String) (org : ItemOrg.Organizer) (fs : ItemOrg.FS)
        (destPath : String) (fi : ItemOrg.FileInfo) (stats : ItemOrg.ItemStats)
        (fuel : Nat) (r : String × Nat),
      ItemOrg.fsExists fs destPath = true →
      fi.checksum = none →
      renameSearch (fun nm => ItemOrg.fsExists fs (pyJoin (pyDirname destPath) nm))
        (pySplitextName fi.name).1 (pySplitextName fi.name).2 1 fuel = some r →
      ItemOrg.handleFileConflict hash org fs destPath fi stats fuel =
        some (true, { fi with name := r.1 }, stats)) := by
  constructor
  · intro hash org fs n fi h
    obtain ⟨d, hd, hn, hp, hs, hm, hc, hcs⟩ := ItemOrg.getFileInfo_spec hash org fs n fi h
    constructor
    · intro hle
      rw [hcs, if_neg]
      omega
    · intro hgt
      exact ⟨d, hd, by rw [hcs, if_pos (by omega)]⟩
  · intro hash org fs destPath fi stats fuel r hex hcs hrs
    exact ItemOrg.handleConflict_rename hash org fs destPath fi stats fuel r hex hcs hrs

/-- Witness for C9: the 3-byte notes.txt gets no checksum and, on a name
collision, is renamed to notes_1.txt rather than skipped; the
1 MiB + 1 byte big.bin gets a checksum (its own content under the identity
hash). -/
theorem claim_C9_witness :
    ItemOrg.getFileInfo hashId sampleOrg fsSolo "notes.txt" = some fiNotes
    ∧ fiNotes.checksum = none
    ∧ ItemOrg.getFileInfo hashId sampleOrg [("/s/big.bin", dBig)] "big.bin" = some fiBig
    ∧ (∃ d, ItemOrg.fsLookup [("/s/big.bin", dBig)] (pyJoin sampleOrg.source_path "big.bin")
        = some d ∧ fiBig.checksum = some (hashId d.content))
    ∧ ItemOrg.handleFileConflict hashId sampleOrg fsDup "/d/documents/notes.txt"
        fiNotes ⟨0, 0, 0, [("documents", 0)]⟩ 5 =
      some (true, { fiNotes with name := "notes_1.txt" }, ⟨0, 0, 0, [("documents", 0)]⟩) := by
  have hsmall : ItemOrg.getFileInfo hashId sampleOrg fsSolo "notes.txt" = some fiNotes := by
    decide
  have hbig : ItemOrg.getFileInfo hashId sampleOrg [("/s/big.bin", dBig)] "big.bin"
      = some fiBig := by
    simp only [ItemOrg.getFileInfo]
    have hlk : ItemOrg.fsLookup [("/s/big.bin", dBig)] (pyJoin sampleOrg.source_path "big.bin")
        = some dBig := by rfl
    rw [hlk]
    have hsz : dBig.content.length > 1024 * 1024 := by
      rw [show dBig.content = bigContent from rfl, bigContent_length]
      norm_num
    simp only [hsz, ite_true]
    rw [show dBig.content = bigContent from rfl, bigContent_length]
    rfl
  refine ⟨hsmall, ?_, hbig, ?_, ?_⟩
  · exact ((claim_C9_checksum_threshold.1 hashId sampleOrg fsSolo "notes.txt" fiNotes
      hsmall).1 (by decide))
  · exact (claim_C9_checksum_threshold.1 hashId sampleOrg [("/s/big.bin", dBig)] "big.bin" fiBig
      hbig).2 (by rw [show fiBig.size = 1048577 from rfl]; norm_num)
  · exact claim_C9_checksum_threshold.2 hashId sampleOrg fsDup "/d/documents/notes.txt"
      fiNotes ⟨0, 0, 0, [("documents", 0)]⟩ 5 ("notes_1.txt", 1)
      (by decide) (by decide) (by decide)

/-- C1 (amended): move_file deletes the source only after the copy has
succeeded.  If the copy itself fails the filesystem is untouched, the
error counter is incremented and there is no retry; if the delete fails
the source file is still present with unchanged content; but if timestamp
restoration (os.utime, line 213) fails, the outcome is failed and the
source has ALREADY been deleted (os.remove runs before os.utime at line
210) — its content survives only in the destination copy.  The original
claim's clause that every failed outcome leaves the source file in place
is therefore false; everything else holds. -/
theorem claim_C1_failure_outcomes
    (hash : String → String) (org : ItemOrg.Organizer) (now : Nat) (fs : ItemOrg.FS)
    (fi fi1 : ItemOrg.FileInfo) (category : String) (stats stats1 : ItemOrg.ItemStats)
    (fuel : Nat) (d : ItemOrg.FileData)
    (hc : ItemOrg.handleFileConflict hash org fs
      (pyJoin (pyJoin org.destination_path category) fi.name) fi stats fuel
      = some (true, fi1, stats1))
    (hsrc : ItemOrg.fsLookup fs fi1.path = some d)
    (hne : pyJoin (pyJoin org.destination_path category) fi.name ≠ fi1.path) :
    (∀ b c : Bool,
      ItemOrg.moveFile hash org ⟨true, b, c⟩ now fs fi category stats fuel =
        some (false, fs, { stats1 with error_count := stats1.error_count + 1 }))
    ∧ (∀ c : Bool, ∃ fsx,
      ItemOrg.moveFile hash org ⟨false, true, c⟩ now fs fi category stats fuel =
        some (false, fsx, { stats1 with error_count := stats1.error_count + 1 })
      ∧ ItemOrg.fsLookup fsx fi1.path = some d)
    ∧ (∃ fsx,
      ItemOrg.moveFile hash org ⟨false, false, true⟩ now fs fi category stats fuel =
        some (false, fsx, { stats1 with error_count := stats1.error_count + 1 })
      ∧ ItemOrg.fsLookup fsx fi1.path = none
      ∧ ∃ dd, ItemOrg.fsLookup fsx
          (pyJoin (pyJoin org.destination_path category) fi.name) = some dd
        ∧ dd.content = d.content) := by
  have hne2 : ¬ (fi1.path = pyJoin (pyJoin org.destination_path category) fi.name) :=
    fun h => hne h.symm
  have hcopy : ItemOrg.copy2 fs fi1.path
      (pyJoin (pyJoin org.destination_path category) fi.name) now =
      ItemOrg.fsSet fs (pyJoin (pyJoin org.destination_path category) fi.name)
        ⟨d.content, d.atime, d.mtime, now⟩ := by
    unfold ItemOrg.copy2
    rw [hsrc]
  refine ⟨?_, ?_, ?_⟩
  · intro b c
    simp only [ItemOrg.moveFile]
    rw [hc]
    simp
  · intro c
    refine ⟨ItemOrg.copy2 fs fi1.path
        (pyJoin (pyJoin org.destination_path category) fi.name) now, ?_, ?_⟩
    · simp only [ItemOrg.moveFile]
      rw [hc]
      simp
    · rw [hcopy, ItemOrg.fsLookup_fsSet, if_neg hne2]
      exact hsrc
  · refine ⟨ItemOrg.fsRemove (ItemOrg.copy2 fs fi1.path
        (pyJoin (pyJoin org.destination_path category) fi.name) now) fi1.path, ?_, ?_, ?_⟩
    · simp only [ItemOrg.moveFile]
      rw [hc]
      simp
    · rw [ItemOrg.fsLookup_fsRemove, if_pos rfl]
    · refine ⟨⟨d.content, d.atime, d.mtime, now⟩, ?_, rfl⟩
      rw [ItemOrg.fsLookup_fsRemove, if_neg hne, hcopy, ItemOrg.fsLookup_fsSet, if_pos rfl]

/-- Witness for C1 at a concrete no-conflict move of notes.txt: a copy
failure leaves the filesystem untouched with the error recorded; a delete
failure leaves the source in place. -/
theorem claim_C1_witness :
    ItemOrg.handleFileConflict hashId sampleOrg fsSolo
        (pyJoin (pyJoin sampleOrg.destination_path "documents") fiNotes.name)
        fiNotes ⟨0, 0, 0, []⟩ 5 = some (true, fiNotes, ⟨0, 0, 0, []⟩)
    ∧ ItemOrg.moveFile hashId sampleOrg ⟨true, false, false⟩ 100 fsSolo fiNotes "documents"
        ⟨0, 0, 0, []⟩ 5 = some (false, fsSolo, ⟨0, 1, 0, []⟩)
    ∧ (∃ fsx, ItemOrg.moveFile hashId sampleOrg ⟨false, true, false⟩ 100 fsSolo fiNotes
        "documents" ⟨0, 0, 0, []⟩ 5 = some (false, fsx, ⟨0, 1, 0, []⟩)
      ∧ ItemOrg.fsLookup fsx fiNotes.path = some smallData) := by
  have h := claim_C1_failure_outcomes hashId sampleOrg 100 fsSolo fiNotes fiNotes "documents"
    ⟨0, 0, 0, []⟩ ⟨0, 0, 0, []⟩ 5 smallData (by decide) (by decide) (by decide)
  exact ⟨by decide, h.1 false false, h.2.1 false⟩

/-- Counterexample for C1 as stated: when os.utime fails after the copy,
move_file records a failed outcome (error counter 1, result False), yet
the source /s/notes.txt no longer exists — os.remove already ran.  The
claim asserted that every failed outcome leaves the source file in
place. -/
theorem claim_C1_counterexample :
    ItemOrg.moveFile hashId sampleOrg ⟨false, false, true⟩ 100 fsSolo fiNotes "documents"
        ⟨0, 0, 0, []⟩ 5 =
      some (false, [("/d/documents/notes.txt", ⟨"abc", 1, 10, 100⟩)], ⟨0, 1, 0, []⟩)
    ∧ ItemOrg.fsLookup [("/d/documents/notes.txt", ⟨"abc", 1, 10, 100⟩)] "/s/notes.txt"
      = none := by
  decide

/-- C2 (amended): when the candidate destination path already exists and
the source file is LARGER than 1 MiB (so a checksum was computed) and the
fingerprints of source and existing destination contents are equal, the
resolution is Skip (duplicate): skip_count increments while error_count,
the per-category counters and the filesystem are unchanged, so the skip is
distinct from an error-skip, the source is not deleted and the file is not
counted as moved.  For files of at most 1 MiB no fingerprint exists and
the claim fails (see the counterexample).  Note that handle_file_conflict
re-reads the "destination" info from the source directory (line 172), so
the comparison is checksum-of-source against checksum-of-source; with
byte-identical contents the hashes coincide either way. -/
theorem claim_C2_duplicate_skip
    (hash : String → String) (org : ItemOrg.Organizer) (faults : ItemOrg.IOFaults)
    (now : Nat) (fs : ItemOrg.FS) (fi : ItemOrg.FileInfo) (category : String)
    (stats : ItemOrg.ItemStats) (fuel : Nat) (d dd : ItemOrg.FileData)
    (hex : ItemOrg.fsExists fs (pyJoin (pyJoin org.destination_path category) fi.name) = true)
    (hbase : pyBasename (pyJoin (pyJoin org.destination_path category) fi.name) = fi.name)
    (hsrc : ItemOrg.fsLookup fs (pyJoin org.source_path fi.name) = some d)
    (hbig : d.content.length > 1024 * 1024)
    (hcs : fi.checksum = some (hash d.content))
    (hdd : ItemOrg.fsLookup fs (pyJoin (pyJoin org.destination_path category) fi.name) = some dd)
    (hfp : hash d.content = hash dd.content) :
    ItemOrg.moveFile hash org faults now fs fi category stats fuel =
      some (false, fs, { stats with skip_count := stats.skip_count + 1 }) :=
  ItemOrg.moveFile_dupSkip hash org faults now fs fi category stats fuel d
    hex hbase hsrc hbig hcs

/-- Witness for C2: big.bin (1 MiB + 1 byte) collides with a
byte-identical destination copy under the identity hash and is skipped:
the filesystem is returned unchanged and only skip_count moves. -/
theorem claim_C2_witness :
    ItemOrg.fsExists fsBigDup
        (pyJoin (pyJoin sampleOrg.destination_path "general") fiBig.name) = true
    ∧ dBig.content.length > 1024 * 1024
    ∧ fiBig.checksum = some (hashId dBig.content)
    ∧ ItemOrg.moveFile hashId sampleOrg ⟨false, false, false⟩ 100 fsBigDup fiBig "general"
        ⟨0, 0, 0, [("general", 0)]⟩ 5 =
      some (false, fsBigDup, ⟨1, 0, 0, [("general", 0)]⟩) := by
  have hbig : dBig.content.length > 1024 * 1024 := by
    rw [show dBig.content = bigContent from rfl, bigContent_length]
    norm_num
  refine ⟨by decide, hbig, rfl, ?_⟩
  exact claim_C2_duplicate_skip hashId sampleOrg ⟨false, false, false⟩ 100 fsBigDup fiBig
    "general" ⟨0, 0, 0, [("general", 0)]⟩ 5 dBig ddBig
    (by decide) (by decide) rfl hbig rfl rfl rfl

/-- Counterexample for C2 as stated: notes.txt (3 bytes) collides with a
destination whose content "abc" is byte-identical, so the content
fingerprints are equal; yet the resolution is NOT Skip: the conflict
handler proceeds under the rename policy, move_file deletes the source,
counts the file as moved, and skip_count stays 0 — because no checksum is
computed for files of at most 1 MiB. -/
theorem claim_C2_counterexample :
    ItemOrg.fsLookup fsDup "/s/notes.txt" = some smallData
    ∧ ItemOrg.fsLookup fsDup "/d/documents/notes.txt" = some destData
    ∧ smallData.content = destData.content
    ∧ ItemOrg.moveFile hashId sampleOrg ⟨false, false, false⟩ 100 fsDup fiNotes "documents"
        ⟨0, 0, 0, [("documents", 0)]⟩ 5 =
      some (true, [("/d/documents/notes.txt", ⟨"abc", 5, 10, 100⟩)],
        ⟨0, 0, 0, [("documents", 1)]⟩) := by
  decide

/-- C4 (amended): for a source file LARGER than 1 MiB whose categorized
destination already holds a byte-identical copy, a second run skips the
file: move_file returns False with the filesystem unchanged (so no
renamed duplicate is created) and only skip_count increments.  For files
of at most 1 MiB the second run computes no fingerprint and does not
skip (see the counterexample). -/
theorem claim_C4_second_run_large
    (hash : String → String) (org : ItemOrg.Organizer) (faults : ItemOrg.IOFaults)
    (now : Nat) (fs : ItemOrg.FS) (n : String) (fi : ItemOrg.FileInfo)
    (stats : ItemOrg.ItemStats) (fuel : Nat) (d dd : ItemOrg.FileData)
    (hfi : ItemOrg.getFileInfo hash org fs n = some fi)
    (hsize : 1024 * 1024 < fi.size)
    (hsrc : ItemOrg.fsLookup fs (pyJoin org.source_path n) = some d)
    (hex : ItemOrg.fsExists fs
      (pyJoin (pyJoin org.destination_path (ItemOrg.categorizeFile org fi)) fi.name) = true)
    (hbase : pyBasename
      (pyJoin (pyJoin org.destination_path (ItemOrg.categorizeFile org fi)) fi.name) = fi.name)
    (hdd : ItemOrg.fsLookup fs
      (pyJoin (pyJoin org.destination_path (ItemOrg.categorizeFile org fi)) fi.name) = some dd)
    (hsame : dd.content = d.content) :
    ItemOrg.moveFile hash org faults now fs fi (ItemOrg.categorizeFile org fi) stats fuel =
      some (false, fs, { stats with skip_count := stats.skip_count + 1 }) := by
  obtain ⟨d0, hd0, hn, hp, hs, hm, hc0, hcs⟩ := ItemOrg.getFileInfo_spec hash org fs n fi hfi
  rw [hsrc] at hd0
  have hdeq : d0 = d := by
    cases hd0
    rfl
  subst hdeq
  have hbig : d0.content.length > 1024 * 1024 := by omega
  have hcs2 : fi.checksum = some (hash d0.content) := by
    rw [hcs, if_pos hbig]
  have hsrc2 : ItemOrg.fsLookup fs (pyJoin org.source_path fi.name) = some d0 := by
    rw [hn]
    exact hsrc
  exact ItemOrg.moveFile_dupSkip hash org faults now fs fi (ItemOrg.categorizeFile org fi)
    stats fuel d0 hex hbase hsrc2 hbig hcs2

/-- Witness for C4: the already-organized movie.bin (1 MiB + 1 byte,
byte-identical copy at /d/general/movie.bin) is skipped on the second run
with the filesystem unchanged. -/
theorem claim_C4_witness :
    ItemOrg.getFileInfo hashId sampleOrg fsMovie "movie.bin" = some fiMovie
    ∧ ItemOrg.categorizeFile sampleOrg fiMovie = "general"
    ∧ ddBig.content = dBig.content
    ∧ ItemOrg.moveFile hashId sampleOrg ⟨false, false, false⟩ 100 fsMovie fiMovie
        (ItemOrg.categorizeFile sampleOrg fiMovie) ⟨0, 0, 0, [("general", 0)]⟩ 5 =
      some (false, fsMovie, ⟨1, 0, 0, [("general", 0)]⟩) := by
  have hfi : ItemOrg.getFileInfo hashId sampleOrg fsMovie "movie.bin" = some fiMovie := by
    simp only [ItemOrg.getFileInfo]
    have hlk : ItemOrg.fsLookup fsMovie (pyJoin sampleOrg.source_path "movie.bin")
        = some dBig := by rfl
    rw [hlk]
    have hsz : dBig.content.length > 1024 * 1024 := by
      rw [show dBig.content = bigContent from rfl, bigContent_length]
      norm_num
    simp only [hsz, ite_true]
    rw [show dBig.content = bigContent from rfl, bigContent_length]
    rfl
  refine ⟨hfi, by decide, rfl, ?_⟩
  exact claim_C4_second_run_large hashId sampleOrg ⟨false, false, false⟩ 100 fsMovie
    "movie.bin" fiMovie ⟨0, 0, 0, [("general", 0)]⟩ 5 dBig ddBig hfi
    (by rw [show fiMovie.size = 1048577 from rfl]; norm_num) rfl
    (by decide) (by decide) rfl rfl

/-- Counterexample for C4 as stated: photo.jpg (2 bytes) already has a
byte-identical copy at its categorized destination, yet the second run
does NOT detect the duplicate and does NOT skip: the conflict resolver
proceeds (choosing the renamed name photo_1.jpg), the file is counted as
moved and skip_count stays 0.  (No duplicate file appears only because
move_file then copies onto the original colliding path.) -/
theorem claim_C4_counterexample :
    ItemOrg.categorizeFile sampleOrg fiPhoto = "images"
    ∧ ItemOrg.fsLookup fsPhoto "/s/photo.jpg" = some ⟨"JJ", 1, 11, 6⟩
    ∧ ItemOrg.fsLookup fsPhoto "/d/images/photo.jpg" = some ⟨"JJ", 2, 21, 7⟩
    ∧ ItemOrg.moveFile hashId sampleOrg ⟨false, false, false⟩ 200 fsPhoto fiPhoto
        (ItemOrg.categorizeFile sampleOrg fiPhoto) ⟨0, 0, 0, [("images", 0)]⟩ 5 =
      some (true, [("/d/images/photo.jpg", ⟨"JJ", 6, 11, 200⟩)],
        ⟨0, 0, 0, [("images", 1)]⟩) := by
  decide

/-- C7 (amended): on a successful move the destination file's modification
timestamp equals the source's original modification timestamp, and the
source's recorded creation timestamp is written into the destination's
ACCESS time (os.utime(dest, (created_time, modified_time)) takes
(atime, mtime)); the destination's own creation timestamp is the time of
the copy, not the source's creation timestamp, which is therefore NOT
preserved (see the counterexample). -/
theorem claim_C7_timestamps
    (hash : String → String) (org : ItemOrg.Organizer) (now : Nat) (fs : ItemOrg.FS)
    (fi fi1 : ItemOrg.FileInfo) (category : String) (stats stats1 : ItemOrg.ItemStats)
    (fuel : Nat) (d : ItemOrg.FileData)
    (hc : ItemOrg.handleFileConflict hash org fs
      (pyJoin (pyJoin org.destination_path category) fi.name) fi stats fuel
      = some (true, fi1, stats1))
    (hsrc : ItemOrg.fsLookup fs fi1.path = some d)
    (hne : pyJoin (pyJoin org.destination_path category) fi.name ≠ fi1.path) :
    ∃ fsx, ItemOrg.moveFile hash org ⟨false, false, false⟩ now fs fi category stats fuel =
        some (true, fsx,
          { stats1 with file_counters := ItemOrg.bumpCounter stats1.file_counters category })
      ∧ ItemOrg.fsLookup fsx (pyJoin (pyJoin org.destination_path category) fi.name) =
        some ⟨d.content, fi1.created_time, fi1.modified_time, now⟩ := by
  have hcopy : ItemOrg.copy2 fs fi1.path
      (pyJoin (pyJoin org.destination_path category) fi.name) now =
      ItemOrg.fsSet fs (pyJoin (pyJoin org.destination_path category) fi.name)
        ⟨d.content, d.atime, d.mtime, now⟩ := by
    unfold ItemOrg.copy2
    rw [hsrc]
  have hlk2 : ItemOrg.fsLookup
      (ItemOrg.fsRemove (ItemOrg.copy2 fs fi1.path
        (pyJoin (pyJoin org.destination_path category) fi.name) now) fi1.path)
      (pyJoin (pyJoin org.destination_path category) fi.name) =
      some ⟨d.content, d.atime, d.mtime, now⟩ := by
    rw [ItemOrg.fsLookup_fsRemove, if_neg hne, hcopy, ItemOrg.fsLookup_fsSet, if_pos rfl]
  refine ⟨ItemOrg.utime (ItemOrg.fsRemove (ItemOrg.copy2 fs fi1.path
      (pyJoin (pyJoin org.destination_path category) fi.name) now) fi1.path)
      (pyJoin (pyJoin org.destination_path category) fi.name)
      fi1.created_time fi1.modified_time, ?_, ?_⟩
  · simp only [ItemOrg.moveFile]
    rw [hc]
    simp
  · unfold ItemOrg.utime
    rw [hlk2, ItemOrg.fsLookup_fsSet, if_pos rfl]

/-- Witness for C7: moving notes.txt (modification time 10, recorded
creation time 5) at clock time 100 produces a destination entry with
mtime 10, atime 5 and ctime 100. -/
theorem claim_C7_witness :
    ItemOrg.handleFileConflict hashId sampleOrg fsSolo
        (pyJoin (pyJoin sampleOrg.destination_path "documents") fiNotes.name)
        fiNotes ⟨0, 0, 0, []⟩ 5 = some (true, fiNotes, ⟨0, 0, 0, []⟩)
    ∧ (∃ fsx, ItemOrg.moveFile hashId sampleOrg ⟨false, false, false⟩ 100 fsSolo fiNotes
        "documents" ⟨0, 0, 0, []⟩ 5 = some (true, fsx, ⟨0, 0, 0, []⟩)
      ∧ ItemOrg.fsLookup fsx
          (pyJoin (pyJoin sampleOrg.destination_path "documents") fiNotes.name) =
        some ⟨smallData.content, fiNotes.created_time, fiNotes.modified_time, 100⟩) := by
  refine ⟨by decide, ?_⟩
  exact claim_C7_timestamps hashId sampleOrg 100 fsSolo fiNotes fiNotes "documents"
    ⟨0, 0, 0, []⟩ ⟨0, 0, 0, []⟩ 5 smallData (by decide) (by decide) (by decide)

/-- Counterexample for C7 as stated: the source's creation timestamp is 5,
but after a successful move at clock time 100 the destination's creation
timestamp is 100 — the original creation timestamp is not carried over
(os.utime can only set access and modification times). -/
theorem claim_C7_counterexample :
    fiNotes.created_time = 5
    ∧ ItemOrg.moveFile hashId sampleOrg ⟨false, false, false⟩ 100 fsSolo fiNotes "documents"
        ⟨0, 0, 0, []⟩ 5 =
      some (true, [("/d/documents/notes.txt", ⟨"abc", 5, 10, 100⟩)], ⟨0, 0, 0, []⟩)
    ∧ (ItemOrg.fsLookup [("/d/documents/notes.txt", ⟨"abc", 5, 10, 100⟩)]
        "/d/documents/notes.txt").map ItemOrg.FileData.ctime = some 100
    ∧ (100 : Nat) ≠ 5 := by
  decide

/-- C5 (amended): with dry_run=True, _move_file performs categorization
and the conflict existence check but never touches the filesystem (no
mkdir, no hash read, no move — the state returned equals the state passed
in) and never raises; the outcome's success flag stays False.  However,
only the conflict path is labeled hypothetically ("Would resolve
conflict"): a non-conflicting file gets the same action label "Moved" as a
live run (see the counterexample), so the claim's clause that every
dry-run outcome is labeled as hypothetical fails. -/
theorem claim_C5_dryrun_no_mutation
    (hash : String → String) (exts : List (FileOrg.FileCategory × List String))
    (baseDir : String) (fs : FileOrg.FS2) (source : String)
    (faults : FileOrg.Faults) (choice : FileOrg.UserChoice) (fuel : Nat)
    (r : FileOrg.BodyExit × FileOrg.FileOperation × FileOrg.FS2)
    (h : FileOrg.moveFileBody hash exts baseDir fs source true faults choice fuel = some r) :
    r.1 = FileOrg.BodyExit.ok
    ∧ r.2.2 = fs
    ∧ r.2.1.success = false
    ∧ r.2.1.error = none
    ∧ (r.2.1.action = "Would resolve conflict" ∨ r.2.1.action = "Moved")
    ∧ ((fs.pathExists (pyJoin (pyJoin baseDir (FileOrg.getFileCategory exts source).titleName)
          (pyBasename source)) = true
        ∧ pyJoin (pyJoin baseDir (FileOrg.getFileCategory exts source).titleName)
          (pyBasename source) ≠ source)
      → r.2.1.action = "Would resolve conflict") := by
  simp only [FileOrg.moveFileBody, if_true, ite_true] at h
  by_cases hcond : (fs.pathExists
      (pyJoin (pyJoin baseDir (FileOrg.getFileCategory exts source).titleName)
        (pyBasename source)) = true
    ∧ pyJoin (pyJoin baseDir (FileOrg.getFileCategory exts source).titleName)
        (pyBasename source) ≠ source)
  · rw [if_pos hcond] at h
    have hr := Option.some.inj h
    subst hr
    exact ⟨rfl, rfl, rfl, rfl, Or.inl rfl, fun _ => rfl⟩
  · rw [if_neg hcond] at h
    simp only [FileOrg.finishMove, if_true] at h
    have hr := Option.some.inj h
    subst hr
    exact ⟨rfl, rfl, rfl, rfl, Or.inr rfl, fun hx => absurd hx hcond⟩

/-- Witness for C5: a dry run over a.txt (no conflict) and over a
conflicting a.txt both return the input filesystem unchanged, with
success False, and the conflicting case carries the hypothetical label. -/
theorem claim_C5_witness :
    FileOrg.moveFileBody hashId FileOrg.defaultExtensions "/b" fsOrgSolo "/b/a.txt" true
        ⟨none, none, none⟩ (.pick .RENAME) 5 =
      some (.ok, ⟨"/b/a.txt", "/b/Documents/a.txt", "Moved", false, none⟩, fsOrgSolo)
    ∧ ((FileOrg.BodyExit.ok,
        (⟨"/b/a.txt", "/b/Documents/a.txt", "Moved", false, none⟩ : FileOrg.FileOperation),
        fsOrgSolo) : FileOrg.BodyExit × FileOrg.FileOperation × FileOrg.FS2).2.2 = fsOrgSolo
    ∧ ((FileOrg.BodyExit.ok,
        (⟨"/b/a.txt", "/b/Documents/a.txt", "Moved", false, none⟩ : FileOrg.FileOperation),
        fsOrgSolo) : FileOrg.BodyExit × FileOrg.FileOperation × FileOrg.FS2).2.1.success = false
    ∧ FileOrg.moveFileBody hashId FileOrg.defaultExtensions "/b" fsOrgConf "/b/a.txt" true
        ⟨none, none, none⟩ .interrupt 5 =
      some (.ok,
        ⟨"/b/a.txt", "/b/Documents/a.txt", "Would resolve conflict", false, none⟩, fsOrgConf)
    ∧ ((FileOrg.BodyExit.ok,
        (⟨"/b/a.txt", "/b/Documents/a.txt", "Would resolve conflict", false, none⟩ :
          FileOrg.FileOperation),
        fsOrgConf) : FileOrg.BodyExit × FileOrg.FileOperation × FileOrg.FS2).2.1.action
      = "Would resolve conflict" := by
  have h1 : FileOrg.moveFileBody hashId FileOrg.defaultExtensions "/b" fsOrgSolo "/b/a.txt"
      true ⟨none, none, none⟩ (.pick .RENAME) 5 =
      some (.ok, ⟨"/b/a.txt", "/b/Documents/a.txt", "Moved", false, none⟩, fsOrgSolo) := by
    decide
  have h2 : FileOrg.moveFileBody hashId FileOrg.defaultExtensions "/b" fsOrgConf "/b/a.txt"
      true ⟨none, none, none⟩ .interrupt 5 =
      some (.ok, ⟨"/b/a.txt", "/b/Documents/a.txt", "Would resolve conflict", false, none⟩,
        fsOrgConf) := by
    decide
  refine ⟨h1, ?_, ?_, h2, ?_⟩
  · exact (claim_C5_dryrun_no_mutation hashId FileOrg.defaultExtensions "/b" fsOrgSolo
      "/b/a.txt" ⟨none, none, none⟩ (.pick .RENAME) 5 _ h1).2.1
  · exact (claim_C5_dryrun_no_mutation hashId FileOrg.defaultExtensions "/b" fsOrgSolo
      "/b/a.txt" ⟨none, none, none⟩ (.pick .RENAME) 5 _ h1).2.2.1
  · exact (claim_C5_dryrun_no_mutation hashId FileOrg.defaultExtensions "/b" fsOrgConf
      "/b/a.txt" ⟨none, none, none⟩ .interrupt 5 _ h2).2.2.2.2.2 (by decide)

/-- Counterexample for C5 as stated: for a non-conflicting file the
dry-run outcome carries action "Moved" — exactly the label of a completed
live move (second conjunct) — so the dry-run outcome is not labeled as
hypothetical; only its success flag differs. -/
theorem claim_C5_counterexample :
    FileOrg.moveFileOrg hashId FileOrg.defaultExtensions "/b" fsOrgSolo "/b/a.txt" true
        ⟨none, none, none⟩ (.pick .RENAME) 5 =
      some (⟨"/b/a.txt", "/b/Documents/a.txt", "Moved", false, none⟩, fsOrgSolo)
    ∧ FileOrg.moveFileOrg hashId FileOrg.defaultExtensions "/b" fsOrgSolo "/b/a.txt" false
        ⟨none, none, none⟩ (.pick .RENAME) 5 =
      some (⟨"/b/a.txt", "/b/Documents/a.txt", "Moved", true, none⟩,
        ⟨["/b/Documents"], [("/b/Documents/a.txt", "X")]⟩) := by
  decide

/-- Exit-state invariants of the body of _move_file: whenever the body
leaves by an exception the op built so far has success = False and no
error recorded yet; a KeyboardInterrupt leaves op in its initial state. -/
theorem moveFileBody_exit (hash : String → String)
    (exts : List (FileOrg.FileCategory × List String)) (baseDir : String)
    (fs : FileOrg.FS2) (source : String) (dryRun : Bool) (faults : FileOrg.Faults)
    (choice : FileOrg.UserChoice) (fuel : Nat)
    (r : FileOrg.BodyExit × FileOrg.FileOperation × FileOrg.FS2)
    (h : FileOrg.moveFileBody hash exts baseDir fs source dryRun faults choice fuel
      = some r) :
    r.1 ≠ FileOrg.BodyExit.ok → r.2.1.success = false ∧ r.2.1.error = none := by
  simp only [FileOrg.moveFileBody, FileOrg.finishMove] at h
  repeat' split at h
  all_goals
    first
    | (have hr := Option.some.inj h
       subst hr
       intro hne
       first
       | exact ⟨rfl, rfl⟩
       | exact absurd rfl hne)
    | simp at h

/-- C10 (amended): for every input and dry-run flag, whenever the body of
_move_file terminates, the wrapper returns a FileOperation and never
propagates: a caught Exception is stored in the outcome's error field with
success still False; a KeyboardInterrupt raised during interactive
conflict resolution is ALSO swallowed by the `return op` in the finally
block, but then the outcome is returned with NO error recorded — the
claim's clause that every exception is stored in the error field fails
(see the counterexample). -/
theorem claim_C10_never_propagates
    (hash : String → String) (exts : List (FileOrg.FileCategory × List String))
    (baseDir : String) (fs : FileOrg.FS2) (source : String) (dryRun : Bool)
    (faults : FileOrg.Faults) (choice : FileOrg.UserChoice) (fuel : Nat)
    (e : FileOrg.BodyExit) (op : FileOrg.FileOperation) (fs2 : FileOrg.FS2)
    (h : FileOrg.moveFileBody hash exts baseDir fs source dryRun faults choice fuel
      = some (e, op, fs2)) :
    (e = FileOrg.BodyExit.ok →
      FileOrg.moveFileOrg hash exts baseDir fs source dryRun faults choice fuel
        = some (op, fs2))
    ∧ (∀ m, e = FileOrg.BodyExit.exc m →
      FileOrg.moveFileOrg hash exts baseDir fs source dryRun faults choice fuel
        = some ({ op with error := some m }, fs2)
      ∧ op.success = false)
    ∧ (e = FileOrg.BodyExit.interrupt →
      FileOrg.moveFileOrg hash exts baseDir fs source dryRun faults choice fuel
        = some (op, fs2)
      ∧ op.error = none ∧ op.success = false) := by
  have inv := moveFileBody_exit hash exts baseDir fs source dryRun faults choice fuel
    (e, op, fs2) h
  refine ⟨?_, ?_, ?_⟩
  · intro he
    subst he
    simp [FileOrg.moveFileOrg, h]
  · intro m he
    subst he
    obtain ⟨h1, _⟩ := inv (by simp)
    exact ⟨by simp [FileOrg.moveFileOrg, h], h1⟩
  · intro he
    subst he
    obtain ⟨h1, h2⟩ := inv (by simp)
    exact ⟨by simp [FileOrg.moveFileOrg, h], h2, h1⟩

/-- Witness for C10: a live move of a.txt whose shutil.move raises "disk
full" yields an outcome with the message in the error field and success
False; a normal move yields the op unchanged. -/
theorem claim_C10_witness :
    FileOrg.moveFileBody hashId FileOrg.defaultExtensions "/b" fsOrgSolo "/b/a.txt" false
        ⟨none, none, some "disk full"⟩ (.pick .RENAME) 5 =
      some (.exc "disk full", ⟨"/b/a.txt", "/b/Documents/a.txt", "Moved", false, none⟩,
        ⟨["/b/Documents"], [("/b/a.txt", "X")]⟩)
    ∧ FileOrg.moveFileOrg hashId FileOrg.defaultExtensions "/b" fsOrgSolo "/b/a.txt" false
        ⟨none, none, some "disk full"⟩ (.pick .RENAME) 5 =
      some (⟨"/b/a.txt", "/b/Documents/a.txt", "Moved", false, some "disk full"⟩,
        ⟨["/b/Documents"], [("/b/a.txt", "X")]⟩) := by
  have hb : FileOrg.moveFileBody hashId FileOrg.defaultExtensions "/b" fsOrgSolo "/b/a.txt"
      false ⟨none, none, some "disk full"⟩ (.pick .RENAME) 5 =
      some (.exc "disk full", ⟨"/b/a.txt", "/b/Documents/a.txt", "Moved", false, none⟩,
        ⟨["/b/Documents"], [("/b/a.txt", "X")]⟩) := by
    decide
  refine ⟨hb, ?_⟩
  exact ((claim_C10_never_propagates hashId FileOrg.defaultExtensions "/b" fsOrgSolo
    "/b/a.txt" false ⟨none, none, some "disk full"⟩ (.pick .RENAME) 5 _ _ _ hb).2.1
    "disk full" rfl).1

/-- Counterexample for C10 as stated: a KeyboardInterrupt raised inside
_resolve_conflict (an exception raised during conflict resolution)
escapes `except Exception` but is swallowed by the `return op` in the
finally block: _move_file returns the outcome with error = none — the
exception is NOT stored in the error field. -/
theorem claim_C10_counterexample :
    FileOrg.moveFileOrg hashId FileOrg.defaultExtensions "/b" fsOrgConf "/b/a.txt" false
        ⟨none, none, none⟩ .interrupt 5 =
      some (⟨"/b/a.txt", "", "", false, none⟩,
        ⟨["/b/Documents"], [("/b/a.txt", "X"), ("/b/Documents/a.txt", "Y")]⟩) := by
  decide

/-- C8 (amended): file_organize enumerates exactly the regular files
directly inside the base directory whose names do not start with a dot;
item_organizer processes exactly the listdir entries that are regular
files inside the source directory, with NO exclusion of dot-files — a
hidden regular file is processed (see the counterexample), so the
claim's default-exclusion clause holds only for file_organize. -/
theorem claim_C8_enumeration :
    (∀ (entries : List FileOrg.DirEntry) (f : FileOrg.DirEntry),
      f ∈ FileOrg.filesToProcess entries ↔
        f ∈ entries ∧ f.isFile = true ∧ FileOrg.startsWithDot f.name = false)
    ∧ (∀ (hash : String → String) (org : ItemOrg.Organizer) (fs : ItemOrg.FS)
        (listing : List String) (n : String) (fi : ItemOrg.FileInfo),
      n ∈ listing → ItemOrg.getFileInfo hash org fs n = some fi →
      fi ∈ ItemOrg.processedInfos hash org fs listing)
    ∧ (∀ (hash : String → String) (org : ItemOrg.Organizer) (fs : ItemOrg.FS)
        (listing : List String) (fi : ItemOrg.FileInfo),
      fi ∈ ItemOrg.processedInfos hash org fs listing →
      ∃ n ∈ listing, ItemOrg.getFileInfo hash org fs n = some fi) := by
  refine ⟨?_, ?_, ?_⟩
  · intro entries f
    simp [FileOrg.filesToProcess, List.mem_filter, Bool.and_eq_true, Bool.not_eq_true',
      and_assoc]
  · intro hash org fs listing n fi hn hfi
    exact List.mem_filterMap.mpr ⟨n, hn, hfi⟩
  · intro hash org fs listing fi hfi
    exact List.mem_filterMap.mp hfi

/-- Witness for C8: the hidden regular file .hidden is processed by
item_organizer (it is a member of the processed list). -/
theorem claim_C8_witness :
    (".hidden" ∈ ([".hidden"] : List String))
    ∧ ItemOrg.getFileInfo hashId sampleOrg [("/s/.hidden", ⟨"z", 0, 0, 0⟩)] ".hidden"
      = some ⟨".hidden", "/s/.hidden", 1, 0, 0, none⟩
    ∧ (⟨".hidden", "/s/.hidden", 1, 0, 0, none⟩ : ItemOrg.FileInfo)
      ∈ ItemOrg.processedInfos hashId sampleOrg [("/s/.hidden", ⟨"z", 0, 0, 0⟩)] [".hidden"]
    ∧ (⟨".hidden", true⟩ : FileOrg.DirEntry) ∉ FileOrg.filesToProcess [⟨".hidden", true⟩] := by
  refine ⟨by simp, by decide, ?_, ?_⟩
  · exact claim_C8_enumeration.2.1 hashId sampleOrg [("/s/.hidden", ⟨"z", 0, 0, 0⟩)]
      [".hidden"] ".hidden" ⟨".hidden", "/s/.hidden", 1, 0, 0, none⟩ (by simp) (by decide)
  · intro hmem
    obtain ⟨_, _, hdot⟩ := (claim_C8_enumeration.1 [⟨".hidden", true⟩] ⟨".hidden", true⟩).mp hmem
    exact absurd hdot (by decide)

/-- Counterexample for C8 as stated: the run of item_organizer (which the
claim also covers) does not exclude hidden files: .hidden is enumerated
and processed, while file_organize does exclude it. -/
theorem claim_C8_counterexample :
    FileOrg.filesToProcess [⟨".hidden", true⟩, ⟨"a.txt", true⟩, ⟨"sub", false⟩]
      = [⟨"a.txt", true⟩]
    ∧ ItemOrg.processedInfos hashId sampleOrg [("/s/.hidden", ⟨"z", 0, 0, 0⟩)] [".hidden"]
      = [⟨".hidden", "/s/.hidden", 1, 0, 0, none⟩] := by
  decide

/-- C3 evaluated at its failing input (see RESULTS): the conflict handler
does pick the first unused candidate a_1.txt (first conjunct), but
move_file's dest_path was computed from the ORIGINAL name and is not
recomputed after the rename (item_organizer.py line 202 vs 209), so the
copy overwrites the existing DISTINCT destination file /d/documents/a.txt
(content OLD becomes NEW) and nothing is ever created at
/d/documents/a_1.txt. -/
theorem claim_C3_rename_overwrites :
    (ItemOrg.handleFileConflict hashId sampleOrg fsDistinct "/d/documents/a.txt" fiA
        ⟨0, 0, 0, [("documents", 0)]⟩ 5).map (fun r => r.2.1.name) = some "a_1.txt"
    ∧ ItemOrg.fsLookup fsDistinct "/d/documents/a.txt" = some ⟨"OLD", 2, 22, 7⟩
    ∧ ItemOrg.moveFile hashId sampleOrg ⟨false, false, false⟩ 100 fsDistinct fiA "documents"
        ⟨0, 0, 0, [("documents", 0)]⟩ 5 =
      some (true, [("/d/documents/a.txt", ⟨"NEW", 6, 12, 100⟩)],
        ⟨0, 0, 0, [("documents", 1)]⟩)
    ∧ ItemOrg.fsLookup [("/d/documents/a.txt", ⟨"NEW", 6, 12, 100⟩)] "/d/documents/a_1.txt"
      = none := by
  decide

end FileOrgSuite
